import Mathlib

/-!
Verification of the `mac_computer_use` service (files `api.py` and `ws.py`):
the chat request handler with its transcript assembly and exchange recording,
and the WebSocket screen-streaming loop.  Python functions are embedded as
pure Lean functions; the external `sampling_loop` (from `loop.py`, outside
the verified sources) is abstracted as a universally quantified oracle, and
the `APIProvider` enumeration with its default-model map from the same
module is abstracted as a validity predicate plus a partial map.
-/

/-! ## Content blocks and messages (transcript assembler input)

A content block of an assistant turn is either a typed object from the
provider library (`BetaTextBlock` with a `text` field, `BetaToolUseBlock`
with `name` and `id` fields), a plain mapping (Python `dict`, embedded as an
association list of string fields), or some other object that the assembler
ignores. -/

inductive Block where
  | typedText (text : String)
  | typedToolUse (name : String) (id : String)
  | dictBlock (fields : List (String × String))
  | otherBlock
  deriving DecidableEq, Repr

/-- A conversation message: `role` is the value of `message.get('role')`
(absence behaves like any non-`"assistant"` string), and `content` is
`some blocks` when `message.get('content')` is a list, `none` otherwise. -/
structure Message where
  role : String
  content : Option (List Block)
  deriving DecidableEq, Repr

/-- Rendering of one content block, from the body of the
`for block in message['content']` loop of `process_chat_request`
(api.py lines 107-118): a typed text block contributes its text plus a
newline; a typed tool-use block contributes a marker line with the tool
name and invocation id; a mapping is dispatched on its `type` field, with
`block.get('text', '')` and `block.get('name', 'Unknown')` defaults; any
other shape contributes nothing. -/
def renderBlock : Block → String
  | .typedText t => t ++ "\n"
  | .typedToolUse name id => "\nTool Used: " ++ name ++ " (ID: " ++ id ++ ")\n"
  | .dictBlock fields =>
      match fields.lookup "type" with
      | some "text" => ((fields.lookup "text").getD "") ++ "\n"
      | some "tool_use" => "\nTool Used: " ++ ((fields.lookup "name").getD "Unknown") ++ "\n"
      | _ => ""
  | .otherBlock => ""

/-- The accumulation of `final_response` over `processed_messages`
(api.py lines 104-118): every message whose role is `assistant` and whose
content is a list has each of its blocks rendered and appended in order. -/
def finalRaw (msgs : List Message) : String :=
  msgs.foldl
    (fun acc m =>
      if m.role = "assistant" then
        match m.content with
        | some blocks => blocks.foldl (fun a b => a ++ renderBlock b) acc
        | none => acc
      else acc)
    ""

/-- Python `str.strip()` with no argument: remove leading and trailing
whitespace. -/
def pyStrip (s : String) : String :=
  ⟨((s.data.dropWhile Char.isWhitespace).reverse.dropWhile
      Char.isWhitespace).reverse⟩

/-- The assembled transcript: `final_response.strip()` (api.py line 121). -/
def assembleTranscript (msgs : List Message) : String :=
  pyStrip (finalRaw msgs)

/-- The content blocks the assembler actually visits: blocks of assistant
messages with list content, in order. -/
def assistantBlocks (msgs : List Message) : List Block :=
  msgs.flatMap (fun m =>
    if m.role = "assistant" then m.content.getD [] else [])

/-- Whether a block is a tool-use block, in either representation. -/
def Block.isToolUse : Block → Bool
  | .typedToolUse _ _ => true
  | .dictBlock fields => fields.lookup "type" == some "tool_use"
  | _ => false

/-! ## Exchange recorder

`api_response_callback` (api.py lines 77-88) builds an `APIExchangeResponse`
pydantic record from the provider response object and appends it to the
request-local `api_exchanges` list; any exception while doing so is caught
and only printed.  A Python value that `str(...)` is applied to is embedded
as `PyVal`; each attribute access or validation step on the provider
response object can raise, so the corresponding field of the embedded
response is an `Except`. -/

inductive PyVal where
  | vStr (s : String)
  | vInt (n : Int)
  | vNone
  deriving DecidableEq, Repr

/-- Python `str(...)` on the embedded values. -/
def pyStr : PyVal → String
  | .vStr s => s
  | .vInt n => toString n
  | .vNone => "None"

/-- The provider response object as seen by `api_response_callback`: each
field is the outcome of the attribute accesses (and, for the status code,
the integer validation) the callback performs; `.error` means that access
raises. -/
structure RawResponse where
  method : Except String PyVal
  url : Except String PyVal
  requestHeaders : Except String (List (PyVal × PyVal))
  statusCode : Except String Int
  respHeaders : Except String (List (PyVal × PyVal))
  text : Except String String
  deriving Repr

/-- The `APIExchangeResponse` record (api.py lines 32-39).  Header
dictionaries are embedded as association lists of strings; `timestamp` is
filled by the `default_factory` with the capture time. -/
structure APIExchangeResponse where
  request_method : String
  request_url : String
  request_headers : List (String × String)
  response_status_code : Int
  response_headers : List (String × String)
  response_text : String
  timestamp : String
  deriving DecidableEq, Repr

/-- Construction of the exchange record inside the `try` block of
`api_response_callback` (api.py lines 79-86): the keyword arguments are
evaluated left to right, each header key and value is coerced with `str`,
and the record's timestamp defaults to the capture time `now`. -/
def buildExchange (now : String) (r : RawResponse) :
    Except String APIExchangeResponse := do
  let m ← r.method
  let u ← r.url
  let rh ← r.requestHeaders
  let sc ← r.statusCode
  let sh ← r.respHeaders
  let t ← r.text
  pure { request_method := pyStr m
         request_url := pyStr u
         request_headers := rh.map (fun p => (pyStr p.1, pyStr p.2))
         response_status_code := sc
         response_headers := sh.map (fun p => (pyStr p.1, pyStr p.2))
         response_text := t
         timestamp := now }

/-- `api_response_callback` (api.py lines 77-88) acting on the accumulated
`api_exchanges` list: on success the new record is appended, on any
exception the error is printed and the list is left unchanged. -/
def api_response_callback (now : String) (exchanges : List APIExchangeResponse)
    (r : RawResponse) : List APIExchangeResponse :=
  match buildExchange now r with
  | .ok e => exchanges ++ [e]
  | .error _ => exchanges

/-! ## Session request handler

`process_chat_request` (api.py lines 47-124) resolves configuration from
the environment, fails fast on a missing key or model, runs the external
`sampling_loop` with the two recording callbacks, and shapes the final
messages into a `ChatResponse`.  `sampling_loop`, the `APIProvider`
enumeration and the `PROVIDER_TO_DEFAULT_MODEL_NAME` map live in `loop.py`,
outside the verified sources, so they enter as parameters: an arbitrary
oracle describing the loop's behaviour, a predicate saying which provider
strings the `APIProvider(...)` constructor accepts, and a partial map from
provider to default model.  Everything proved below holds for every choice
of these parameters. -/

/-- The request body of `POST /chat` (api.py lines 26-29).  The pydantic
default of `only_n_most_recent_images` is `10`; an explicit `null` is the
`none` case. -/
structure ChatRequest where
  message : String
  system_prompt_suffix : Option String
  only_n_most_recent_images : Option Int
  deriving DecidableEq, Repr

/-- One entry of the request-local `tools_used` list: the dictionary
appended by `tool_output_callback` (api.py lines 71-75), with `output`
already rendered by `str`. -/
structure ToolUsedRecord where
  tool_id : String
  output : String
  deriving DecidableEq, Repr

/-- One callback firing issued by the sampling loop, in order: either a call
of `tool_output_callback` (carrying `str(tool_output)` and the tool id) or a
call of `api_response_callback` (carrying the provider response object). -/
inductive LoopEvent where
  | toolOutput (output : String) (tool_id : String)
  | apiResponse (r : RawResponse)

/-- The environment variables `process_chat_request` reads
(api.py lines 49-51); `none` means the variable is unset. -/
structure Env where
  anthropic_api_key : Option String
  api_provider : Option String
  api_model : Option String
  deriving DecidableEq, Repr

/-- The argument bundle passed to `sampling_loop` (api.py lines 91-101),
without the three callbacks. -/
structure SamplingInput where
  system_prompt_suffix : String
  model : String
  provider : String
  messages : List Message
  api_key : String
  only_n_most_recent_images : Option Int
  deriving DecidableEq, Repr

/-- One run of the external `sampling_loop`: the final message list it
returns, the callback firings it issued in order, and the number of
provider calls it made. -/
structure LoopRun where
  finalMessages : List Message
  events : List LoopEvent
  providerCalls : Nat

/-- Replaying the loop's callback firings against the request-local
accumulators `tools_used` and `api_exchanges` (api.py lines 68-88). -/
def runCallbacks (now : String) (events : List LoopEvent) :
    List ToolUsedRecord × List APIExchangeResponse :=
  events.foldl
    (fun acc e =>
      match e with
      | .toolOutput out tid => (acc.1 ++ [⟨tid, out⟩], acc.2)
      | .apiResponse r => (acc.1, api_response_callback now acc.2 r))
    ([], [])

/-- Python truthiness of an optional string: an unset variable and the empty
string are falsy. -/
def optTruthy : Option String → Bool
  | some s => !(s == "")
  | none => false

/-- The model-resolution expression of api.py line 51:
`os.getenv("API_MODEL") or PROVIDER_TO_DEFAULT_MODEL_NAME.get(APIProvider(provider))`.
When the environment model is truthy, Python short-circuits and
`APIProvider(provider)` is not evaluated here; otherwise the constructor
runs (raising on an invalid provider string) and the default-model map is
consulted, which may yield nothing. -/
def resolveModel (validProvider : String → Bool)
    (defaultModelFor : String → Option String)
    (envModel : Option String) (provider : String) :
    Except String (Option String) :=
  if optTruthy envModel then .ok envModel
  else if validProvider provider then .ok (defaultModelFor provider)
  else .error ("'" ++ provider ++ "' is not a valid APIProvider")

/-- The response payload assembled by `process_chat_request`
(api.py lines 42-45 and 120-124). -/
structure ChatResponse where
  full_response : String
  tools_used : List ToolUsedRecord
  api_exchanges : List APIExchangeResponse
  deriving DecidableEq, Repr

/-- The observable outcome of one `process_chat_request` run: the returned
value or raised error, the number of provider calls made, and the records
accumulated by this request's callbacks. -/
structure ProcessTrace where
  result : Except String ChatResponse
  providerCalls : Nat
  tools_used : List ToolUsedRecord
  api_exchanges : List APIExchangeResponse

/-- `process_chat_request` (api.py lines 47-124).  Configuration is read
from `env`; the model resolution of line 51 runs first and can itself raise
on an invalid provider; the key and model checks of lines 53-57 then fail
fast, before `sampling_loop` is invoked, so the error branches perform zero
provider calls and accumulate no records.  On the success path the initial
conversation is the single user turn built from the request message, the
oracle stands for `sampling_loop`, the callbacks are replayed to build the
request-local records, and the final messages are assembled into the
transcript. -/
def process_chat_request (validProvider : String → Bool)
    (defaultModelFor : String → Option String)
    (oracle : SamplingInput → LoopRun) (now : String)
    (env : Env) (req : ChatRequest) : ProcessTrace :=
  match resolveModel validProvider defaultModelFor env.api_model
      (env.api_provider.getD "anthropic") with
  | .error e => ⟨.error e, 0, [], []⟩
  | .ok model =>
    if !optTruthy env.anthropic_api_key then
      ⟨.error "No API key found. Please set ANTHROPIC_API_KEY environment variable.",
       0, [], []⟩
    else if !optTruthy model then
      ⟨.error "No model specified. Please set API_MODEL environment variable.",
       0, [], []⟩
    else if !validProvider (env.api_provider.getD "anthropic") then
      ⟨.error ("'" ++ env.api_provider.getD "anthropic"
        ++ "' is not a valid APIProvider"), 0, [], []⟩
    else
      let messages : List Message :=
        [⟨"user", some [.dictBlock [("type", "text"), ("text", req.message)]]⟩]
      let run := oracle
        ⟨req.system_prompt_suffix.getD "", model.getD "",
         env.api_provider.getD "anthropic", messages,
         env.anthropic_api_key.getD "", req.only_n_most_recent_images⟩
      let recs := runCallbacks now run.events
      ⟨.ok ⟨assembleTranscript run.finalMessages, recs.1, recs.2⟩,
       run.providerCalls, recs.1, recs.2⟩

/-- An HTTP response body: either a plain string or the full payload. -/
inductive RespBody where
  | strBody (s : String)
  | payloadBody (r : ChatResponse)
  deriving DecidableEq, Repr

/-- The outcome of an endpoint call: a successful response with a body, or
an `HTTPException` with a status code and detail message. -/
inductive EndpointResult where
  | success (body : RespBody)
  | httpError (status : Nat) (detail : String)
  deriving DecidableEq, Repr

/-- `POST /chat` (api.py lines 147-155): runs `process_chat_request`,
discards its return value, and answers `"task done"`; any exception becomes
an `HTTPException` with status 500 and the exception text as detail. -/
def chat_endpoint (validProvider : String → Bool)
    (defaultModelFor : String → Option String)
    (oracle : SamplingInput → LoopRun) (now : String)
    (env : Env) (req : ChatRequest) : EndpointResult :=
  match (process_chat_request validProvider defaultModelFor oracle now env req).result with
  | .ok _ => .success (.strBody "task done")
  | .error e => .httpError 500 e

/-- The `ChatRequest` the GET endpoint builds from its query parameters
(api.py lines 129-139); an absent `only_n_most_recent_images` parameter
takes the query default 10. -/
def mkGetRequest (message : String) (sps : Option String)
    (imgs : Option Int) : ChatRequest :=
  ⟨message, sps, some (imgs.getD 10)⟩

/-- `GET /chat` (api.py lines 128-145): builds the request from the query
parameters, runs the same `process_chat_request`, and answers `"done"` on
success; any exception becomes an `HTTPException` with status 500. -/
def chat_get_endpoint (validProvider : String → Bool)
    (defaultModelFor : String → Option String)
    (oracle : SamplingInput → LoopRun) (now : String) (env : Env)
    (message : String) (sps : Option String) (imgs : Option Int) :
    EndpointResult :=
  match (process_chat_request validProvider defaultModelFor oracle now env
      (mkGetRequest message sps imgs)).result with
  | .ok _ => .success (.strBody "done")
  | .error e => .httpError 500 e

/-! ## Frame capture service (ws.py)

`send_screenshot` (ws.py lines 11-25) captures the screen to the file
`screenshot.jpg`, opens it, resizes it to width 640 with height
`int(640 * img.height / img.width)`, saves it into a fresh in-memory buffer
as JPEG at quality 80, and sends the buffer's bytes as one WebSocket
message; the buffer and the compressed bytes are locals that are dropped
when the function returns.  `handler` (ws.py lines 28-35) repeats
`send_screenshot` followed by `asyncio.sleep(0.5)` until
`websockets.exceptions.ConnectionClosed` is raised, which it catches and
returns normally; any other exception propagates. -/

/-- A screen image: dimensions plus an abstract content identifier. -/
structure Image where
  width : Nat
  height : Nat
  pix : Nat
  deriving DecidableEq, Repr

/-- The resize of ws.py line 19: target width 640 and height
`int(640 * img.height / img.width)` (floor). -/
def resizeForStream (img : Image) : Image :=
  { width := 640, height := 640 * img.height / img.width, pix := img.pix }

/-- A compressed frame: the encoded image together with the encoding
parameters of ws.py line 21 (`format="JPEG", quality=80`). -/
structure Frame where
  img : Image
  format : String
  quality : Nat
  deriving DecidableEq, Repr

/-- The encoding of ws.py line 21. -/
def encodeFrame (img : Image) : Frame :=
  { img := img, format := "JPEG", quality := 80 }

/-- The frame produced by iteration `i` of the capture loop when the screen
content at iteration `i` is `capture i`. -/
def frameAt (capture : Nat → Image) (i : Nat) : Frame :=
  encodeFrame (resizeForStream (capture i))

/-- One observable effect of the capture loop: the screenshot-file write of
`sct.shot`, the allocation of the in-memory compressed frame, its
transmission as one message, its release when the locals of
`send_screenshot` are dropped, or the fixed delay. -/
inductive WSEffect where
  | writeFile (fname : String) (img : Image)
  | allocFrame (f : Frame)
  | sendMsg (f : Frame)
  | freeFrame (f : Frame)
  | sleepMs (ms : Nat)
  deriving DecidableEq, Repr

/-- The effects of one `send_screenshot` call at iteration `i`
(ws.py lines 11-25): capture to `screenshot.jpg`, build the compressed
frame in a buffer, send it as one message, then drop it on return. -/
def sendScreenshotEffects (capture : Nat → Image) (i : Nat) : List WSEffect :=
  [.writeFile "screenshot.jpg" (capture i),
   .allocFrame (frameAt capture i),
   .sendMsg (frameAt capture i),
   .freeFrame (frameAt capture i)]

/-- One full iteration of the `handler` loop (ws.py lines 31-33):
`send_screenshot` followed by the 500 ms sleep. -/
def iterEffects (capture : Nat → Image) (i : Nat) : List WSEffect :=
  sendScreenshotEffects capture i ++ [.sleepMs 500]

/-- The effect trace of the first `n` iterations of the capture loop. -/
def loopTrace (capture : Nat → Image) (n : Nat) : List WSEffect :=
  (List.range n).flatMap (iterEffects capture)

/-- The frames transmitted in a trace, in order. -/
def sentFrames (tr : List WSEffect) : List Frame :=
  tr.filterMap (fun e =>
    match e with
    | .sendMsg f => some f
    | _ => none)

/-- Folding the allocation/release effects over a starting set of live
compressed frames. -/
def liveAux (tr : List WSEffect) (acc : List Frame) : List Frame :=
  tr.foldl
    (fun live e =>
      match e with
      | .allocFrame f => live ++ [f]
      | .freeFrame f => live.erase f
      | _ => live)
    acc

/-- The compressed-frame data still held by the service after a trace. -/
def liveFrames (tr : List WSEffect) : List Frame :=
  liveAux tr []

/-- The contents of the `screenshot.jpg` file after a trace: each capture
overwrites the previous one (ws.py line 14), so the file holds the most
recent capture only. -/
def lastWrite (tr : List WSEffect) : Option Image :=
  tr.foldl
    (fun acc e =>
      match e with
      | .writeFile _ img => some img
      | _ => acc)
    none

/-- The outcome of one `websocket.send` attempt: success, the peer closed
the connection (`ConnectionClosed`), or some other exception. -/
inductive SendOutcome where
  | ok
  | closed
  | otherExc (msg : String)
  deriving DecidableEq, Repr

/-- How a `handler` invocation ends: a normal return (the `except
ConnectionClosed` branch), an uncaught exception, or still looping when the
observation bound (fuel) runs out. -/
inductive HandlerResult where
  | finished
  | raised (msg : String)
  | running
  deriving DecidableEq, Repr

/-- The control flow of the `while True` loop of `handler`
(ws.py lines 31-35), observed for at most `fuel` iterations starting at
send attempt `i`: each iteration performs one send attempt; a successful
send is followed by the sleep and the next iteration; a send failing with
`ConnectionClosed` is caught by the handler, which returns normally; any
other exception propagates.  The second component is the total number of
send attempts performed. -/
def captureLoop (outcomes : Nat → SendOutcome) :
    Nat → Nat → HandlerResult × Nat
  | 0, i => (.running, i)
  | fuel + 1, i =>
    match outcomes i with
    | .ok => captureLoop outcomes fuel (i + 1)
    | .closed => (.finished, i + 1)
    | .otherExc m => (.raised m, i + 1)

/-- `handler` (ws.py lines 28-35) under a given sequence of send outcomes,
observed for at most `fuel` iterations. -/
def handler (outcomes : Nat → SendOutcome) (fuel : Nat) :
    HandlerResult × Nat :=
  captureLoop outcomes fuel 0

/-! ## Helper lemmas on string folds and the transcript -/

theorem string_foldl_append (l : List String) (acc : String) :
    l.foldl (· ++ ·) acc = acc ++ l.foldl (· ++ ·) "" := by
  induction l generalizing acc with
  | nil => simp
  | cons s ss ih =>
    rw [List.foldl_cons, List.foldl_cons, ih (acc ++ s), ih ("" ++ s),
      String.empty_append, String.append_assoc]

theorem string_join_cons (s : String) (l : List String) :
    String.join (s :: l) = s ++ String.join l := by
  show (s :: l).foldl (· ++ ·) "" = s ++ l.foldl (· ++ ·) ""
  rw [List.foldl_cons, string_foldl_append, String.empty_append]

theorem string_join_append (l₁ l₂ : List String) :
    String.join (l₁ ++ l₂) = String.join l₁ ++ String.join l₂ := by
  induction l₁ with
  | nil => simp [String.join]
  | cons s ss ih =>
    rw [List.cons_append, string_join_cons, string_join_cons, ih,
      String.append_assoc]

theorem foldl_renderBlock (blocks : List Block) (acc : String) :
    blocks.foldl (fun a b => a ++ renderBlock b) acc
      = acc ++ String.join (blocks.map renderBlock) := by
  induction blocks generalizing acc with
  | nil => simp [String.join]
  | cons b bs ih =>
    rw [List.foldl_cons, List.map_cons, string_join_cons, ih,
      String.append_assoc]

theorem assistantBlocks_cons (m : Message) (msgs : List Message) :
    assistantBlocks (m :: msgs)
      = (if m.role = "assistant" then m.content.getD [] else [])
        ++ assistantBlocks msgs := by
  simp [assistantBlocks]

theorem finalRaw_aux (msgs : List Message) (acc : String) :
    msgs.foldl
      (fun acc m =>
        if m.role = "assistant" then
          match m.content with
          | some blocks => blocks.foldl (fun a b => a ++ renderBlock b) acc
          | none => acc
        else acc)
      acc
    = acc ++ String.join ((assistantBlocks msgs).map renderBlock) := by
  induction msgs generalizing acc with
  | nil => simp [assistantBlocks, String.join]
  | cons m ms ih =>
    rw [List.foldl_cons, ih, assistantBlocks_cons, List.map_append,
      string_join_append]
    by_cases hr : m.role = "assistant"
    · cases hc : m.content with
      | none => simp [hr, hc, String.join]
      | some blocks => simp [hr, hc, foldl_renderBlock, String.append_assoc]
    · simp [hr, String.join]

theorem finalRaw_eq_join (msgs : List Message) :
    finalRaw msgs = String.join ((assistantBlocks msgs).map renderBlock) := by
  rw [finalRaw, finalRaw_aux, String.empty_append]

/-! ## Theorems for the claims -/

/-- C2 (counterexample): a typed `BetaToolUseBlock` and a plain mapping
with the same `type`, `name` and `id` fields are not rendered identically —
the typed block's rendering carries the invocation id, the mapping's does
not. -/
theorem toolUse_shapes_render_differently :
    renderBlock (.typedToolUse "computer" "toolu_01")
      ≠ renderBlock (.dictBlock
          [("type", "tool_use"), ("name", "computer"), ("id", "toolu_01")]) := by
  decide

/-- C2 (amended): a `text` block is rendered identically in its typed and
plain-mapping shapes, but the two shapes of a `tool_use` block are not
normalized identically: the typed shape is rendered as a marker line with
both the tool name and the invocation id, while the plain-mapping shape is
rendered as a marker line with the tool name only, the invocation id being
omitted. -/
theorem block_shape_rendering :
    (∀ t : String,
      renderBlock (.typedText t)
        = renderBlock (.dictBlock [("type", "text"), ("text", t)]))
    ∧ (∀ name id : String,
      renderBlock (.typedToolUse name id)
        = "\nTool Used: " ++ name ++ " (ID: " ++ id ++ ")\n")
    ∧ (∀ name id : String,
      renderBlock (.dictBlock [("type", "tool_use"), ("name", name), ("id", id)])
        = "\nTool Used: " ++ name ++ "\n") := by
  refine ⟨fun t => ?_, fun name id => ?_, fun name id => ?_⟩ <;> rfl

/-- C10: transcript assembly is total over malformed plain-mapping blocks:
a mapping of type `text` with no `text` key contributes the empty string
plus a newline, a mapping of type `tool_use` with no `name` key is rendered
with the placeholder name `Unknown`, and a mapping of any other type, a
mapping with no type, or a block of any other shape contributes nothing. -/
theorem malformed_blocks_total (fields : List (String × String)) :
    (fields.lookup "type" = some "text" → fields.lookup "text" = none →
      renderBlock (.dictBlock fields) = "\n")
    ∧ (fields.lookup "type" = some "tool_use" → fields.lookup "name" = none →
      renderBlock (.dictBlock fields) = "\nTool Used: Unknown\n")
    ∧ (∀ ty, fields.lookup "type" = some ty → ty ≠ "text" → ty ≠ "tool_use" →
      renderBlock (.dictBlock fields) = "")
    ∧ (fields.lookup "type" = none → renderBlock (.dictBlock fields) = "")
    ∧ renderBlock .otherBlock = "" := by
  refine ⟨fun h1 h2 => ?_, fun h1 h2 => ?_, fun ty h1 h2 h3 => ?_,
    fun h1 => ?_, rfl⟩
  · simp [renderBlock, h1, h2]
  · simp [renderBlock, h1, h2]
  · simp only [renderBlock]
    rw [h1]
    split
    · rename_i heq; exact absurd (Option.some.inj heq) h2
    · rename_i heq; exact absurd (Option.some.inj heq) h3
    · rfl
  · simp [renderBlock, h1]

/-- The per-block pieces of the transcript, in visiting order, each tagged
with whether it comes from a tool-use block. -/
def pieceList (msgs : List Message) : List (Bool × String) :=
  (assistantBlocks msgs).map (fun b => (Block.isToolUse b, renderBlock b))

theorem piece_count (bs : List Block) :
    ((bs.map (fun b => (Block.isToolUse b, renderBlock b))).filter
      Prod.fst).length = bs.countP Block.isToolUse := by
  induction bs with
  | nil => rfl
  | cons b bs ih =>
    cases hb : Block.isToolUse b <;>
      simp [List.countP_cons, hb, ih]

/-- C4: the raw transcript is the concatenation, in original order, of the
pieces contributed by the blocks of assistant turns; the tagged pieces
contain exactly one piece per tool-use block (so a conversation with N
tool-use blocks contributes exactly N marker pieces, interleaved with the
text pieces in block order); every tool-use piece is a marker line starting
with the tool-marker text; and inserting a non-assistant turn anywhere
leaves the transcript unchanged. -/
theorem transcript_interleaving :
    (∀ msgs, finalRaw msgs = String.join ((pieceList msgs).map Prod.snd))
    ∧ (∀ msgs, ((pieceList msgs).filter Prod.fst).length
        = (assistantBlocks msgs).countP Block.isToolUse)
    ∧ (∀ msgs, ∀ p ∈ pieceList msgs, p.1 = true →
        ∃ tail, p.2 = "\nTool Used: " ++ tail)
    ∧ (∀ (m : Message) (xs ys : List Message), m.role ≠ "assistant" →
        finalRaw (xs ++ m :: ys) = finalRaw (xs ++ ys)) := by
  refine ⟨fun msgs => ?_, fun msgs => piece_count _,
    fun msgs p hp h1 => ?_, fun m xs ys hm => ?_⟩
  · rw [finalRaw_eq_join, pieceList, List.map_map]; rfl
  · obtain ⟨b, hb, rfl⟩ := List.mem_map.mp hp
    cases b with
    | typedText t => simp [Block.isToolUse] at h1
    | typedToolUse name id =>
      exact ⟨name ++ (" (ID: " ++ (id ++ ")\n")),
        by simp [renderBlock, String.append_assoc]⟩
    | dictBlock fields =>
      have hl : fields.lookup "type" = some "tool_use" := by
        simpa [Block.isToolUse] using h1
      refine ⟨(fields.lookup "name").getD "Unknown" ++ "\n", ?_⟩
      simp only [renderBlock, hl, String.append_assoc]
    | otherBlock => simp [Block.isToolUse] at h1
  · rw [finalRaw_eq_join, finalRaw_eq_join]
    have hab : assistantBlocks (xs ++ m :: ys) = assistantBlocks (xs ++ ys) := by
      simp [assistantBlocks, hm]
    rw [hab]

/-- C4 (witness): a concrete non-assistant turn inserted into a concrete
conversation leaves the assembled transcript unchanged. -/
theorem transcript_interleaving_witness :
    (Message.mk "user" (some [.typedText "q"])).role ≠ "assistant"
    ∧ finalRaw [⟨"user", some [.typedText "q"]⟩,
        ⟨"assistant", some [.typedText "a"]⟩]
      = finalRaw [⟨"assistant", some [.typedText "a"]⟩] :=
  ⟨by decide,
   transcript_interleaving.2.2.2 ⟨"user", some [.typedText "q"]⟩ []
     [⟨"assistant", some [.typedText "a"]⟩] (by decide)⟩

/-- C10 (witness): instances of the totality statement at concrete
malformed mappings. -/
theorem malformed_blocks_total_witness :
    renderBlock (.dictBlock [("type", "text")]) = "\n"
    ∧ renderBlock (.dictBlock [("type", "tool_use")]) = "\nTool Used: Unknown\n"
    ∧ renderBlock (.dictBlock [("type", "image")]) = "" :=
  ⟨(malformed_blocks_total [("type", "text")]).1 rfl rfl,
   (malformed_blocks_total [("type", "tool_use")]).2.1 rfl rfl,
   (malformed_blocks_total [("type", "image")]).2.2.1 "image" rfl
     (by decide) (by decide)⟩

/-- Python falsiness of the resolved API key (api.py line 53). -/
def apiKeyFalsy (env : Env) : Bool :=
  !optTruthy env.anthropic_api_key

/-- Whether the model resolution of api.py line 51 yields a truthy model;
false when the resolution raises or yields nothing or an empty string. -/
def modelResolvedTruthy (validProvider : String → Bool)
    (defaultModelFor : String → Option String) (env : Env) : Bool :=
  match resolveModel validProvider defaultModelFor env.api_model
      (env.api_provider.getD "anthropic") with
  | .ok m => optTruthy m
  | .error _ => false

/-- C3: whenever the resolved API key is empty or absent, or the resolved
model is empty or absent, `process_chat_request` raises before the
sampling loop is invoked: for every possible sampling-loop behaviour the
outcome is the same configuration error with zero provider calls and no
tool-output or api-exchange records. -/
theorem config_error_fails_fast (validProvider : String → Bool)
    (defaultModelFor : String → Option String) (now : String) (env : Env)
    (req : ChatRequest)
    (h : apiKeyFalsy env = true
      ∨ modelResolvedTruthy validProvider defaultModelFor env = false) :
    ∃ msg, ∀ oracle,
      process_chat_request validProvider defaultModelFor oracle now env req
        = ⟨Except.error msg, 0, [], []⟩ := by
  cases hres : resolveModel validProvider defaultModelFor env.api_model
      (env.api_provider.getD "anthropic") with
  | error e =>
    exact ⟨e, fun oracle => by simp [process_chat_request, hres]⟩
  | ok m =>
    cases hk : optTruthy env.anthropic_api_key with
    | false =>
      exact ⟨"No API key found. Please set ANTHROPIC_API_KEY environment variable.",
        fun oracle => by simp [process_chat_request, hres, hk]⟩
    | true =>
      have hm : optTruthy m = false := by
        cases h with
        | inl h => rw [apiKeyFalsy, hk] at h; exact absurd h (by decide)
        | inr h => rw [modelResolvedTruthy, hres] at h; exact h
      exact ⟨"No model specified. Please set API_MODEL environment variable.",
        fun oracle => by simp [process_chat_request, hres, hk, hm]⟩

/-- C3 (witness): with the API key unset, a concrete request fails with a
configuration error, zero provider calls and empty records, whatever the
sampling loop would have done. -/
theorem config_error_fails_fast_witness :
    apiKeyFalsy ⟨none, none, some "claude-3"⟩ = true
    ∧ ∃ msg, ∀ oracle,
        process_chat_request (fun _ => true) (fun _ => none) oracle "T"
          ⟨none, none, some "claude-3"⟩ ⟨"hi", none, none⟩
          = ⟨Except.error msg, 0, [], []⟩ :=
  ⟨by decide,
   config_error_fails_fast (fun _ => true) (fun _ => none) "T"
     ⟨none, none, some "claude-3"⟩ ⟨"hi", none, none⟩ (Or.inl (by decide))⟩

/-- C5: the api-exchange callback is total over arbitrary provider response
objects: either building the record fails, in which case the exchange list
is unchanged (the exception is caught and only logged), or it succeeds, in
which case the record is appended, its timestamp defaults to the capture
time, and all request and response header keys and values are coerced to
strings. -/
theorem exchange_callback_total (now : String)
    (exchanges : List APIExchangeResponse) (r : RawResponse) :
    ((∃ msg, buildExchange now r = .error msg)
      ∧ api_response_callback now exchanges r = exchanges)
    ∨ (∃ e rh sh, buildExchange now r = .ok e
        ∧ api_response_callback now exchanges r = exchanges ++ [e]
        ∧ e.timestamp = now
        ∧ r.requestHeaders = .ok rh
        ∧ e.request_headers = rh.map (fun p => (pyStr p.1, pyStr p.2))
        ∧ r.respHeaders = .ok sh
        ∧ e.response_headers = sh.map (fun p => (pyStr p.1, pyStr p.2))) := by
  obtain ⟨m, u, rh, sc, sh, t⟩ := r
  cases m with
  | error msg => exact .inl ⟨⟨msg, rfl⟩, rfl⟩
  | ok mv =>
  cases u with
  | error msg => exact .inl ⟨⟨msg, rfl⟩, rfl⟩
  | ok uv =>
  cases rh with
  | error msg => exact .inl ⟨⟨msg, rfl⟩, rfl⟩
  | ok rhv =>
  cases sc with
  | error msg => exact .inl ⟨⟨msg, rfl⟩, rfl⟩
  | ok scv =>
  cases sh with
  | error msg => exact .inl ⟨⟨msg, rfl⟩, rfl⟩
  | ok shv =>
  cases t with
  | error msg => exact .inl ⟨⟨msg, rfl⟩, rfl⟩
  | ok tv =>
    exact .inr ⟨_, rhv, shv, rfl, rfl, rfl, rfl, rfl, rfl, rfl⟩

theorem process_chat_request_spec (validProvider : String → Bool)
    (defaultModelFor : String → Option String)
    (oracle : SamplingInput → LoopRun) (now : String) (env : Env)
    (req : ChatRequest) :
    (∃ msg, process_chat_request validProvider defaultModelFor oracle now
        env req = ⟨.error msg, 0, [], []⟩)
    ∨ (∃ full tu ax n, process_chat_request validProvider defaultModelFor
        oracle now env req = ⟨.ok ⟨full, tu, ax⟩, n, tu, ax⟩) := by
  unfold process_chat_request
  split
  · exact .inl ⟨_, rfl⟩
  · split
    · exact .inl ⟨_, rfl⟩
    · split
      · exact .inl ⟨_, rfl⟩
      · split
        · exact .inl ⟨_, rfl⟩
        · exact .inr ⟨_, _, _, _, rfl⟩

/-- C1 (counterexample): at a concrete request on which processing
succeeds, `process_chat_request` assembles the payload, but the POST
endpoint's response body is the string "task done", not that payload. -/
theorem post_chat_discards_payload :
    (process_chat_request (fun _ => true) (fun _ => none)
        (fun _ => ⟨[], [], 1⟩) "T" ⟨some "k", none, some "m"⟩
        ⟨"hello", none, some 10⟩).result
      = Except.ok ⟨"", [], []⟩
    ∧ chat_endpoint (fun _ => true) (fun _ => none)
        (fun _ => ⟨[], [], 1⟩) "T" ⟨some "k", none, some "m"⟩
        ⟨"hello", none, some 10⟩
      ≠ EndpointResult.success (.payloadBody ⟨"", [], []⟩) :=
  ⟨rfl, by decide⟩

/-- C1 (amended): for every successful POST /chat request the handler
`process_chat_request` assembles the payload whose `tools_used` and
`api_exchanges` are exactly the records accumulated by this request's
callbacks, but `chat_endpoint` discards that payload: the HTTP response
body is the fixed string "task done". -/
theorem post_chat_returns_task_done (validProvider : String → Bool)
    (defaultModelFor : String → Option String)
    (oracle : SamplingInput → LoopRun) (now : String) (env : Env)
    (req : ChatRequest) (r : ChatResponse)
    (h : (process_chat_request validProvider defaultModelFor oracle now
        env req).result = .ok r) :
    chat_endpoint validProvider defaultModelFor oracle now env req
      = .success (.strBody "task done")
    ∧ ∃ n, process_chat_request validProvider defaultModelFor oracle now
        env req = ⟨.ok r, n, r.tools_used, r.api_exchanges⟩ := by
  rcases process_chat_request_spec validProvider defaultModelFor oracle now
      env req with ⟨msg, hp⟩ | ⟨full, tu, ax, n, hp⟩
  · rw [hp] at h
    exact absurd h (by simp)
  · rw [hp] at h
    obtain rfl : ChatResponse.mk full tu ax = r := Except.ok.inj h
    refine ⟨?_, n, ?_⟩
    · unfold chat_endpoint
      rw [hp]
    · rw [hp]

/-- C1 (witness): the amended statement at a concrete successful request. -/
theorem post_chat_returns_task_done_witness :
    (process_chat_request (fun _ => true) (fun _ => none)
        (fun _ => ⟨[], [], 1⟩) "T" ⟨some "k", none, some "m"⟩
        ⟨"hi", none, none⟩).result
      = Except.ok ⟨"", [], []⟩
    ∧ chat_endpoint (fun _ => true) (fun _ => none)
        (fun _ => ⟨[], [], 1⟩) "T" ⟨some "k", none, some "m"⟩
        ⟨"hi", none, none⟩
      = .success (.strBody "task done") :=
  ⟨rfl,
   (post_chat_returns_task_done (fun _ => true) (fun _ => none)
     (fun _ => ⟨[], [], 1⟩) "T" ⟨some "k", none, some "m"⟩
     ⟨"hi", none, none⟩ ⟨"", [], []⟩ rfl).1⟩

/-- C9: GET /chat builds the same request fields from its query parameters
(with query default 10 for `only_n_most_recent_images`), performs the same
processing as POST /chat on that request, and on success returns the
minimal acknowledgment string "done" rather than the full payload; on
failure it propagates the same server-error status and message as the POST
form. -/
theorem get_chat_same_processing (validProvider : String → Bool)
    (defaultModelFor : String → Option String)
    (oracle : SamplingInput → LoopRun) (now : String) (env : Env)
    (message : String) (sps : Option String) (imgs : Option Int) :
    chat_get_endpoint validProvider defaultModelFor oracle now env
        message sps imgs
      = (match chat_endpoint validProvider defaultModelFor oracle now env
            (mkGetRequest message sps imgs) with
         | .success _ => .success (.strBody "done")
         | .httpError s e => .httpError s e)
    ∧ (mkGetRequest message sps none).only_n_most_recent_images = some 10 := by
  constructor
  · unfold chat_get_endpoint chat_endpoint
    cases (process_chat_request validProvider defaultModelFor oracle now env
      (mkGetRequest message sps imgs)).result <;> rfl
  · rfl

theorem captureLoop_closed (outcomes : Nat → SendOutcome) :
    ∀ k fuel i : Nat, (∀ j, j < k → outcomes (i + j) = .ok) →
      outcomes (i + k) = .closed → k < fuel →
      captureLoop outcomes fuel i = (.finished, i + k + 1) := by
  intro k
  induction k with
  | zero =>
    intro fuel i hok hcl hf
    obtain ⟨f, rfl⟩ : ∃ f, fuel = f + 1 := ⟨fuel - 1, by omega⟩
    rw [Nat.add_zero] at hcl
    simp [captureLoop, hcl]
  | succ k ih =>
    intro fuel i hok hcl hf
    obtain ⟨f, rfl⟩ : ∃ f, fuel = f + 1 := ⟨fuel - 1, by omega⟩
    have h0 : outcomes i = .ok := by
      have h := hok 0 (Nat.succ_pos k)
      rwa [Nat.add_zero] at h
    have hok' : ∀ j, j < k → outcomes (i + 1 + j) = .ok := by
      intro j hj
      have h := hok (j + 1) (by omega)
      have e : i + (j + 1) = i + 1 + j := by omega
      rwa [e] at h
    have hcl' : outcomes (i + 1 + k) = .closed := by
      have e : i + (k + 1) = i + 1 + k := by omega
      rwa [e] at hcl
    have hstep : captureLoop outcomes (f + 1) i = captureLoop outcomes f (i + 1) := by
      simp [captureLoop, h0]
    rw [hstep, ih f (i + 1) hok' hcl' (by omega)]
    have e : i + 1 + k + 1 = i + (k + 1) + 1 := by omega
    rw [e]

/-- C6: if the first k send attempts of a frame-capture connection succeed
and the (k+1)-th fails because the peer closed the connection, the handler
catches the exception and returns normally, having performed exactly k+1
send attempts — no send after the failure, and nothing propagates past the
handler boundary. -/
theorem handler_stops_on_closed_connection (outcomes : Nat → SendOutcome)
    (k fuel : Nat)
    (hok : ∀ j, j < k → outcomes j = SendOutcome.ok)
    (hcl : outcomes k = SendOutcome.closed)
    (hfuel : k < fuel) :
    handler outcomes fuel = (HandlerResult.finished, k + 1) := by
  have h := captureLoop_closed outcomes k fuel 0
    (fun j hj => by simpa using hok j hj) (by simpa using hcl) hfuel
  simpa [handler] using h

/-- C6 (witness): a connection whose third send attempt hits a closed peer
finishes normally after exactly three send attempts. -/
theorem handler_stops_on_closed_connection_witness :
    (∀ j, j < 2 →
      (fun n => if n < 2 then SendOutcome.ok else SendOutcome.closed) j
        = SendOutcome.ok)
    ∧ handler (fun n => if n < 2 then SendOutcome.ok else SendOutcome.closed) 5
        = (HandlerResult.finished, 3) :=
  ⟨by decide,
   handler_stops_on_closed_connection
     (fun n => if n < 2 then SendOutcome.ok else SendOutcome.closed) 2 5
     (by decide) (by decide) (by decide)⟩

theorem liveAux_append (t1 t2 : List WSEffect) (acc : List Frame) :
    liveAux (t1 ++ t2) acc = liveAux t2 (liveAux t1 acc) := by
  simp [liveAux, List.foldl_append]

theorem loopTrace_succ (capture : Nat → Image) (n : Nat) :
    loopTrace capture (n + 1)
      = loopTrace capture n ++ iterEffects capture n := by
  simp [loopTrace, List.range_succ]

theorem liveAux_iter (capture : Nat → Image) (i : Nat) :
    liveAux (iterEffects capture i) [] = [] := by
  simp [iterEffects, sendScreenshotEffects, liveAux]

theorem liveFrames_loopTrace (capture : Nat → Image) (n : Nat) :
    liveFrames (loopTrace capture n) = [] := by
  induction n with
  | zero => rfl
  | succ n ih =>
    rw [loopTrace_succ]
    show liveAux (loopTrace capture n ++ iterEffects capture n) [] = []
    rw [liveAux_append, show liveAux (loopTrace capture n) [] = [] from ih]
    exact liveAux_iter capture n

theorem sentFrames_loopTrace (capture : Nat → Image) (n : Nat) :
    sentFrames (loopTrace capture n) = (List.range n).map (frameAt capture) := by
  induction n with
  | zero => rfl
  | succ n ih =>
    have hsplit : sentFrames (loopTrace capture n ++ iterEffects capture n)
        = sentFrames (loopTrace capture n)
          ++ sentFrames (iterEffects capture n) := by
      simp [sentFrames]
    rw [loopTrace_succ, hsplit, ih]
    simp [iterEffects, sendScreenshotEffects, sentFrames, List.range_succ]

theorem liveAux_iter_take (capture : Nat → Image) (i m : Nat) :
    (liveAux ((iterEffects capture i).take m) []).length ≤ 1 := by
  match m with
  | 0 => simp [liveAux]
  | 1 => simp [iterEffects, sendScreenshotEffects, liveAux]
  | 2 => simp [iterEffects, sendScreenshotEffects, liveAux]
  | 3 => simp [iterEffects, sendScreenshotEffects, liveAux]
  | 4 => simp [iterEffects, sendScreenshotEffects, liveAux]
  | m + 5 => simp [iterEffects, sendScreenshotEffects, liveAux]

theorem liveFrames_take_bound (capture : Nat → Image) (n : Nat) :
    ∀ k, (liveFrames ((loopTrace capture n).take k)).length ≤ 1 := by
  induction n with
  | zero => intro k; simp [loopTrace, liveFrames, liveAux]
  | succ n ih =>
    intro k
    rw [loopTrace_succ, List.take_append_eq_append_take]
    by_cases hk : k ≤ (loopTrace capture n).length
    · have h0 : k - (loopTrace capture n).length = 0 := by omega
      rw [h0, List.take_zero, List.append_nil]
      exact ih k
    · rw [List.take_of_length_le (by omega)]
      show (liveAux (loopTrace capture n
          ++ (iterEffects capture n).take (k - (loopTrace capture n).length))
          []).length ≤ 1
      rw [liveAux_append,
        show liveAux (loopTrace capture n) [] = []
          from liveFrames_loopTrace capture n]
      exact liveAux_iter_take capture n _

theorem lastWrite_loopTrace (capture : Nat → Image) (n : Nat) :
    lastWrite (loopTrace capture n)
      = if n = 0 then none else some (capture (n - 1)) := by
  induction n with
  | zero => rfl
  | succ n ih =>
    rw [loopTrace_succ]
    simp [lastWrite, List.foldl_append, iterEffects, sendScreenshotEffects]

/-- C7: frames (the compressed image blobs) are produced, transmitted and
discarded.  After any number of iterations no compressed-frame data is
still held by the service; the frames transmitted are exactly one per
iteration, in production order; at every intermediate point of the effect
trace at most one compressed frame is alive — the one currently being
produced and sent — so no history of frames ever accumulates across
iterations; and the screenshot file holds at most the single most recent
raw capture, each iteration overwriting the previous one. -/
theorem frames_transient (capture : Nat → Image) (n : Nat) :
    liveFrames (loopTrace capture n) = []
    ∧ sentFrames (loopTrace capture n) = (List.range n).map (frameAt capture)
    ∧ (∀ k, (liveFrames ((loopTrace capture n).take k)).length ≤ 1)
    ∧ lastWrite (loopTrace capture n)
        = if n = 0 then none else some (capture (n - 1)) :=
  ⟨liveFrames_loopTrace capture n, sentFrames_loopTrace capture n,
   liveFrames_take_bound capture n, lastWrite_loopTrace capture n⟩

/-- C8: every iteration of the capture loop writes the captured screen,
builds one compressed frame, sends it as one message and then waits 500 ms;
the frame is a JPEG at quality 80 whose image has width 640 and height
`int(640 * height / width)`, which preserves the aspect ratio up to the
floor rounding (the exact bounds of the last two conjuncts). -/
theorem frame_pipeline (capture : Nat → Image) (i : Nat)
    (h : 0 < (capture i).width) :
    iterEffects capture i
      = [.writeFile "screenshot.jpg" (capture i),
         .allocFrame (frameAt capture i),
         .sendMsg (frameAt capture i),
         .freeFrame (frameAt capture i),
         .sleepMs 500]
    ∧ sentFrames (iterEffects capture i) = [frameAt capture i]
    ∧ (frameAt capture i).format = "JPEG"
    ∧ (frameAt capture i).quality = 80
    ∧ (frameAt capture i).img.width = 640
    ∧ (frameAt capture i).img.height
        = 640 * (capture i).height / (capture i).width
    ∧ (capture i).width * (frameAt capture i).img.height
        ≤ 640 * (capture i).height
    ∧ 640 * (capture i).height
        < (capture i).width * ((frameAt capture i).img.height + 1) := by
  refine ⟨rfl, by simp [iterEffects, sendScreenshotEffects, sentFrames],
    rfl, rfl, rfl, rfl, ?_, ?_⟩
  · show (capture i).width * (640 * (capture i).height / (capture i).width)
        ≤ 640 * (capture i).height
    rw [Nat.mul_comm]
    exact Nat.div_mul_le_self _ _
  · show 640 * (capture i).height
        < (capture i).width * (640 * (capture i).height / (capture i).width + 1)
    have h1 := Nat.div_add_mod (640 * (capture i).height) (capture i).width
    have h2 := Nat.mod_lt (640 * (capture i).height) h
    calc 640 * (capture i).height
        = (capture i).width * (640 * (capture i).height / (capture i).width)
          + 640 * (capture i).height % (capture i).width := h1.symm
      _ < (capture i).width * (640 * (capture i).height / (capture i).width)
          + (capture i).width := by omega
      _ = (capture i).width
          * (640 * (capture i).height / (capture i).width + 1) := by ring

/-- C8 (witness): a 1280x800 screen is resized to 640x400 at quality 80. -/
theorem frame_pipeline_witness :
    0 < (Image.mk 1280 800 0).width
    ∧ (frameAt (fun _ => Image.mk 1280 800 0) 0).img.height = 400 :=
  ⟨by decide,
   ((frame_pipeline (fun _ => Image.mk 1280 800 0) 0
     (by decide)).2.2.2.2.2.1).trans (by decide)⟩
